import Mathlib

/-!
Verification of the transport and RPC-correlation layer of the
nostr-commerce-framework repository: the relay connection pool
(src/core/connection.ts), the priority/retry message queue
(src/core/queue.ts), and the two wallet-connect RPC client classes
(the files given as unnamed part_027 and part_028).

Each definition is a shallow embedding of the corresponding TypeScript:
JavaScript Map objects become association lists with set-semantics update,
thrown NostrError values become Except results, and external network
outcomes (ensureRelay winning or losing its race against the timeout)
are passed in as explicit boolean parameters.  The asynchronous drain
loop of the queue is embedded as a small-step event semantics that
mirrors where the JavaScript code actually suspends: the loop body runs
synchronously up to its first await, so the handler for the head item is
invoked inside the first enqueue call, and the shift after the await
removes whatever is at the front of the (possibly re-sorted) array at
that moment.
-/

/-- Error codes used by the pool and the queue (src/core/errors.ts
together with the additional codes referenced by connection.ts and
queue.ts). -/
inductive ErrorCode where
  | RELAY_CONNECTION_FAILED
  | RELAY_TIMEOUT
  | CONNECTION_LIMIT_EXCEEDED
  | INVALID_MESSAGE_TYPE
  | QUEUE_FULL
  deriving DecidableEq, Repr

/-! ## Connection pool (src/core/connection.ts) -/

/-- The configuration fields of ConnectionPoolConfig that the pool logic
reads (connectionTimeout and reconnectInterval only parametrise timers). -/
structure ConnectionPoolConfig where
  maxConnections : Nat
  maxRetries : Nat
  deriving Repr

/-- State of a ConnectionPool: the three Map fields.  A SimplePool object
carries no state relevant to the claims, so the pools map is represented
by its key list (a JS Map preserves insertion order and holds each key
once). -/
structure PoolState where
  pools : List String
  connectionStatus : List (String × Bool)
  retryAttempts : List (String × Nat)
  deriving DecidableEq, Repr

/-- A freshly constructed pool: all three maps empty. -/
def PoolState.init : PoolState := ⟨[], [], []⟩

/-- JS Map.set on an association list: overwrite the entry if the key is
present, append otherwise. -/
def mapSet {α : Type} (l : List (String × α)) (k : String) (v : α) :
    List (String × α) :=
  if l.any (fun p => p.1 = k) then
    l.map (fun p => if p.1 = k then (k, v) else p)
  else l ++ [(k, v)]

/-- ConnectionPool.connectToRelay (connection.ts lines 70-111).  netOk
says whether the ensureRelay/timeout race succeeds; on a lost race the
timeout error is raised (an ensureRelay failure propagates through the
same catch block, so one failure code stands for both outcomes). -/
def connectToRelay (cfg : ConnectionPoolConfig) (netOk : Bool)
    (st : PoolState) (relay : String) : Except ErrorCode Unit × PoolState :=
  let attempts := (st.retryAttempts.lookup relay).getD 0
  if attempts ≥ cfg.maxRetries then
    (.error .RELAY_CONNECTION_FAILED, st)
  else if netOk then
    (.ok (), { st with
      connectionStatus := mapSet st.connectionStatus relay true,
      retryAttempts := mapSet st.retryAttempts relay 0 })
  else
    (.error .RELAY_TIMEOUT, { st with
      connectionStatus := mapSet st.connectionStatus relay false,
      retryAttempts := mapSet st.retryAttempts relay (attempts + 1) })

/-- ConnectionPool.getPool (connection.ts lines 42-65): return the cached
entry if present; fail with CONNECTION_LIMIT_EXCEEDED at the ceiling;
otherwise insert the relay and attempt establishment, deleting the entry
again if establishment fails and rethrowing the error. -/
def getPool (cfg : ConnectionPoolConfig) (netOk : Bool)
    (st : PoolState) (relay : String) : Except ErrorCode Unit × PoolState :=
  if relay ∈ st.pools then (.ok (), st)
  else if st.pools.length ≥ cfg.maxConnections then
    (.error .CONNECTION_LIMIT_EXCEEDED, st)
  else
    let st1 : PoolState := { st with pools := st.pools ++ [relay] }
    match connectToRelay cfg netOk st1 relay with
    | (.ok _, st2) => (.ok (), st2)
    | (.error e, st2) => (.error e, { st2 with pools := st2.pools.erase relay })

/-- ConnectionPool.close (connection.ts lines 156-167): for every entry of
the pools map, close the underlying pool and delete the relay from all
three maps.  Entries of connectionStatus or retryAttempts whose relay is
not (or no longer) a key of the pools map are left behind, exactly as in
the source loop, which iterates over pools entries only. -/
def closePool (st : PoolState) : PoolState :=
  { pools := [],
    connectionStatus := st.connectionStatus.filter (fun p => ¬ p.1 ∈ st.pools),
    retryAttempts := st.retryAttempts.filter (fun p => ¬ p.1 ∈ st.pools) }

/-- Sequential getPool calls for a list of relays, every establishment
race won (netOk true throughout). -/
def acquireAll (cfg : ConnectionPoolConfig) (st : PoolState) :
    List String → List (Except ErrorCode Unit) × PoolState
  | [] => ([], st)
  | r :: rs =>
    let (res, st1) := getPool cfg true st r
    let (ress, st2) := acquireAll cfg st1 rs
    (res :: ress, st2)

/-- The pool state reached after successfully acquiring the relays of l
in order starting from an empty pool. -/
def freshState (l : List String) : PoolState :=
  ⟨l, l.map (fun r => (r, true)), l.map (fun r => (r, 0))⟩

/-! ## Message queue (src/core/queue.ts) -/

structure QueueConfig where
  maxSize : Nat
  processingTimeout : Nat
  retryAttempts : Nat
  retryDelay : Nat
  deriving Repr

/-- QueuedMessage (queue.ts lines 12-18).  The random base-36 id string
is modeled by a Nat drawn from a fresh counter; the data field, which the
source fills with a type/payload pair, is flattened into msgType and an
integer payload (the priority-ordering test stores the priority in the
payload, which is what the recording handler reads back). -/
structure QueuedMessage where
  id : Nat
  msgType : String
  payload : Int
  priority : Int
  timestamp : Nat
  attempts : Nat
  deriving DecidableEq, Repr

/-- Stable insertion of a message into a list sorted by descending
priority: the new element goes in front of the first element whose
priority is not larger, so among equal priorities earlier elements stay
first. -/
def insertDesc (m : QueuedMessage) : List QueuedMessage → List QueuedMessage
  | [] => [m]
  | y :: ys => if y.priority > m.priority then y :: insertDesc m ys else m :: y :: ys

/-- The embedding of the JS stable Array.sort with comparator
(a, b) => b.priority - a.priority (queue.ts line 65): a stable sort by
descending priority. -/
def sortDesc : List QueuedMessage → List QueuedMessage
  | [] => []
  | x :: xs => insertDesc x (sortDesc xs)

/-- State of a MessageQueue together with the observable event log of one
run: handlers is the key set of the handlers map, record lists the
payloads the registered recording handler has been invoked with (in
invocation order), processedLog and failedLog list the message ids
carried by emitted messageProcessed and messageFailed events, inflight is
the message whose handler invocation the drain loop is currently
awaiting, and nextId is the id counter standing in for the random id
generator. -/
structure QueueState where
  handlers : List String
  queue : List QueuedMessage
  processing : Bool
  inflight : Option QueuedMessage
  record : List Int
  processedLog : List Nat
  failedLog : List Nat
  nextId : Nat
  deriving DecidableEq, Repr

/-- A queue on which registerHandler has been called for the given types
and nothing else has happened. -/
def initQueue (handlers : List String) : QueueState :=
  ⟨handlers, [], false, none, [], [], [], 0⟩

/-- MessageQueue.enqueue (queue.ts lines 39-79) including the synchronous
prefix of the processQueue call it makes: reject INVALID_MESSAGE_TYPE for
an unregistered type, reject QUEUE_FULL at capacity, otherwise push the
new message, re-sort, and, when the drain loop is not already running,
start it - the loop body runs synchronously up to its first await, which
invokes the handler of the head message before enqueue returns. -/
def enqueue (cfg : QueueConfig) (st : QueueState) (type : String)
    (payload priority : Int) (now : Nat) : Except ErrorCode Nat × QueueState :=
  if ¬ type ∈ st.handlers then (.error .INVALID_MESSAGE_TYPE, st)
  else if st.queue.length ≥ cfg.maxSize then (.error .QUEUE_FULL, st)
  else
    let m : QueuedMessage := ⟨st.nextId, type, payload, priority, now, 0⟩
    let q := sortDesc (st.queue ++ [m])
    let st1 := { st with queue := q, nextId := st.nextId + 1 }
    if st.processing then (.ok m.id, st1)
    else
      match q with
      | [] => (.ok m.id, st1)
      | h :: _ =>
        (.ok m.id,
          { st1 with
              processing := true
              record := st1.record ++ [h.payload]
              inflight := some h })

/-- Resumption of processQueue after the awaited handler promise of the
inflight message resolves successfully (queue.ts lines 100-115 and the
next loop iteration): shift the CURRENT head of the queue (which, after
re-sorts by interleaved enqueues, need not be the message that was
processed), emit messageProcessed for the processed message, then either
invoke the handler of the new head or leave the loop and clear the
processing flag. -/
def stepComplete (st : QueueState) : QueueState :=
  match st.inflight with
  | none => st
  | some m =>
    let q1 := st.queue.tail
    let st1 := { st with queue := q1, processedLog := st.processedLog ++ [m.id] }
    match q1 with
    | [] => { st1 with inflight := none, processing := false }
    | h :: _ => { st1 with inflight := some h, record := st1.record ++ [h.payload] }

/-- Events of a queue run under a single registered type whose handler
records its argument and always succeeds: an enqueue call carrying the
priority (also stored as the payload, as in the repository test), or the
resolution of the awaited handler promise. -/
inductive QueueEvent where
  | enq (priority : Int) (now : Nat)
  | complete
  deriving Repr

/-- Fold the event-loop steps of the priority-ordering scenario over an
event list. -/
def runPriorityScenario (cfg : QueueConfig) :
    QueueState → List QueueEvent → QueueState
  | st, [] => st
  | st, .enq p now :: evs =>
    runPriorityScenario cfg (enqueue cfg st "test" p p now).2 evs
  | st, .complete :: evs => runPriorityScenario cfg (stepComplete st) evs

/-- The record returned by MessageQueue.getStatus (queue.ts lines
155-165): size, processing flag, and the timestamp of the element at
index 0 of the queue array (none when empty). -/
structure QueueStatus where
  size : Nat
  processing : Bool
  oldestMessage : Option Nat
  deriving DecidableEq, Repr

def getStatus (st : QueueState) : QueueStatus :=
  ⟨st.queue.length, st.processing, st.queue.head?.map (fun m => m.timestamp)⟩

/-- Queue state after enqueuing a priority-0 item at time 5 and then a
priority-5 item at time 9: the later, higher-priority item sorts to the
front. -/
def statusCounterexampleState : QueueState :=
  (enqueue ⟨100, 1000, 3, 100⟩
    ((enqueue ⟨100, 1000, 3, 100⟩ (initQueue ["test"]) "test" 0 0 5).2)
    "test" 5 5 9).2

/-- Queue state after enqueuing two equal-priority items at times 5 and
9: the stable sort keeps arrival order, so the front item is the oldest. -/
def statusWitnessState : QueueState :=
  (enqueue ⟨100, 1000, 3, 100⟩
    ((enqueue ⟨100, 1000, 3, 100⟩ (initQueue ["test"]) "test" 0 0 5).2)
    "test" 0 0 9).2

/-- Observable outcome of draining a single always-failing item:
number of handler invocations, ids carried by emitted messageFailed
events, and the final queue length. -/
structure FailDrainResult where
  invocations : Nat
  failedLog : List Nat
  finalQueueLength : Nat
  deriving DecidableEq, Repr

/-- processQueue (queue.ts lines 84-150) specialised to a queue holding
the single message m whose handler fails (throws or exceeds the
processing timeout) on every attempt: each loop iteration invokes the
handler, increments attempts, and then either drops the message and
emits messageFailed with its id and the final error (budget reached) or
shifts and re-pushes it, waits the retry delay, and iterates.  The loop
returns normally in every case: the error reaches only the emitted
event, never the caller of enqueue. -/
def drainAlwaysFailing (retryAttempts : Nat) (m : QueuedMessage) :
    FailDrainResult :=
  if _h : m.attempts + 1 ≥ retryAttempts then
    { invocations := 1, failedLog := [m.id], finalQueueLength := 0 }
  else
    let r := drainAlwaysFailing retryAttempts
      { m with attempts := m.attempts + 1 }
    { r with invocations := r.invocations + 1 }
termination_by retryAttempts - m.attempts
decreasing_by simp_wf; omega

/-! ## Wallet-connect RPC client, primary class (unnamed part_027) -/

/-- WalletCapabilities (part_027 lines 42-48). -/
structure WalletCapabilities where
  payInvoice : Bool
  createInvoice : Bool
  signMessage : Bool
  nip04 : Bool
  nip47 : Bool
  deriving DecidableEq, Repr

/-- A kind-23195 payment response event as handlePaymentResponse reads
it: the value of the payment_id tag if one exists, and the status field
of the parsed JSON content. -/
structure PaymentResponseEvent where
  paymentIdTag : Option String
  status : String
  deriving DecidableEq, Repr

/-- State of a NostrWalletConnect (part_027) instance together with the
observable effects of one run: pendingPayments is the key set of the
pendingPayments map (each key holding a resolver closure), resolvedLog
lists the payment ids whose resolver has been invoked (one entry per
invocation), rejectedLog lists rejections delivered to callers of
payInvoice, errorLog lists emitted error events, and published lists the
events handed to publishEvent. -/
structure NWC27State where
  connected : Bool
  capabilities : Option WalletCapabilities
  subscriptions : List String
  pendingPayments : List String
  resolvedLog : List String
  rejectedLog : List String
  errorLog : List String
  published : List String
  deriving DecidableEq, Repr

/-- NostrWalletConnect.payInvoice (part_027 lines 149-198): reject when
not connected, reject when the negotiated capabilities do not include
payInvoice (optional chaining yields a falsy value when capabilities is
undefined), otherwise publish the payment request event and register the
pending payment resolver under paymentId.  paymentId is the externalId
of the request (the hash fallback is a fresh id the same way). -/
def payInvoice27 (st : NWC27State) (paymentId : String) :
    Except String NWC27State :=
  if ¬ st.connected then .error "Not connected to wallet"
  else if ¬ ((st.capabilities.map (fun c => c.payInvoice)).getD false) then
    .error "Wallet does not support paying invoices"
  else .ok { st with
      published := st.published ++ ["pay_invoice:" ++ paymentId],
      pendingPayments :=
        if paymentId ∈ st.pendingPayments then st.pendingPayments
        else st.pendingPayments ++ [paymentId] }

/-- NostrWalletConnect.handlePaymentResponse (part_027 lines 438-469):
emit an error event if the payment_id tag is missing; return silently if
no pending payment is registered under that id; on a success status,
invoke the resolver and delete the entry; on any other status, emit an
error event and leave the pending entry in place. -/
def handlePaymentResponse27 (st : NWC27State) (ev : PaymentResponseEvent) :
    NWC27State :=
  match ev.paymentIdTag with
  | none => { st with errorLog := st.errorLog ++ ["Missing payment ID in response"] }
  | some pid =>
    if pid ∈ st.pendingPayments then
      if ev.status = "success" then
        { st with
            resolvedLog := st.resolvedLog ++ [pid],
            pendingPayments := st.pendingPayments.erase pid }
      else { st with errorLog := st.errorLog ++ ["Payment failed"] }
    else st

/-- The payment timeout callback registered by payInvoice (part_027
lines 187-190): delete the pending entry and reject the caller with a
payment timeout error.  This is the only code path that ever rejects a
pending payInvoice caller. -/
def paymentTimeout27 (st : NWC27State) (paymentId : String) : NWC27State :=
  { st with
      pendingPayments := st.pendingPayments.erase paymentId,
      rejectedLog := st.rejectedLog ++ [paymentId ++ ":Payment timeout"] }

/-- NostrWalletConnect.disconnect (part_027 lines 556-569): clear the
connected flag, the capabilities, the subscriptions, and the
pendingPayments map.  The pending resolver closures are discarded
without being invoked and no rejection is delivered. -/
def disconnect27 (st : NWC27State) : NWC27State :=
  { st with
      connected := false
      capabilities := none
      subscriptions := []
      pendingPayments := [] }

/-- A connected client with one outstanding pending payment p. -/
def failureResponseState : NWC27State :=
  ⟨true, some ⟨true, true, true, true, true⟩, [], ["p"], [], [], [], []⟩

/-- A payment response correlated to p whose status is not success. -/
def failureResponseEvent : PaymentResponseEvent := ⟨some "p", "error"⟩

/-- A connected client with one subscription and one outstanding pending
payment at the moment disconnect is called. -/
def disconnectState : NWC27State :=
  ⟨true, some ⟨true, true, true, true, true⟩, ["sub1"], ["p"], [], [], [], []⟩

/-! ## Wallet-connect RPC client, second class (unnamed part_028) -/

/-- State of a NostrWalletConnect (part_028) instance: the connected
flag and the fields filled in by parseConnectionString, plus the
supportedMethods list taken from the constructor options (stored but
never consulted by any RPC method). -/
structure NWC28State where
  connected : Bool
  supportedMethods : List String
  relayUrl : String
  secret : String
  pubkey : String
  deriving DecidableEq, Repr

/-- NostrWalletConnect.payInvoice (part_028 lines 95-105): check the
connected flag only, then build the request event and hand it to
sendEvent.  The ok value lists the events handed to sendEvent; an error
is raised before anything is sent. -/
def payInvoice28 (st : NWC28State) : Except String (List String) :=
  if ¬ st.connected then .error "Not connected"
  else .ok ["pay_invoice"]

/-- NostrWalletConnect.getBalance (part_028 lines 107-112): check the
connected flag only - there is no capability check against
supportedMethods or against anything negotiated - then build the request
event and hand it to sendEvent. -/
def getBalance28 (st : NWC28State) : Except String (List String) :=
  if ¬ st.connected then .error "Not connected"
  else .ok ["get_balance"]

/-- A connected part_028 client whose method set lacks get_balance. -/
def connectedNoBalanceCap : NWC28State :=
  ⟨true, ["pay_invoice"], "wss://relay.example.com", "s", "pk"⟩

/-- A connection descriptor as the WHATWG URL parser hands it to
parseConnectionString: the protocol (with trailing colon), the pathname,
and the query parameters. -/
structure ConnDescriptor where
  protocol : String
  pathname : String
  params : List (String × String)
  deriving DecidableEq, Repr

/-- The parsed fields stored on the client by parseConnectionString. -/
structure ParsedConn where
  pubkey : String
  relayUrl : String
  secret : String
  deriving DecidableEq, Repr

/-- The JS String startsWith over the character sequence. -/
def strStartsWith (s pre : String) : Bool :=
  s.toList.take pre.toList.length == pre.toList

/-- The JS String slice(n) over the character sequence. -/
def strDrop (s : String) (n : Nat) : String :=
  String.mk (s.toList.drop n)

/-- NostrWalletConnect.parseConnectionString (part_028 lines 41-62):
require the nostr+walletconnect protocol, take the pubkey as the
pathname with the two leading slashes removed - with NO check that the
result is nonempty - and require the relay and secret query parameters
to be present and nonempty (a missing URLSearchParams entry is null,
which is falsy like the empty string).  Every failure is caught and
rethrown as the single malformed-descriptor error. -/
def parseConnectionString (d : ConnDescriptor) : Except String ParsedConn :=
  if ¬ strStartsWith d.protocol "nostr+walletconnect" then
    .error "Invalid connection string format"
  else
    let pubkey := strDrop d.pathname 2
    let relayUrl := (d.params.lookup "relay").getD ""
    let secret := (d.params.lookup "secret").getD ""
    if relayUrl = "" ∨ secret = "" then
      .error "Invalid connection string format"
    else .ok ⟨pubkey, relayUrl, secret⟩

/-- The default supportedMethods list of the part_028 constructor. -/
def defaultMethods : List String :=
  ["pay_invoice", "get_balance", "get_info", "list_transactions", "make_invoice"]

/-- The part_028 constructor (lines 25-39): store the options and parse
the connection string; a parse failure propagates out of the constructor
and no client value exists. -/
def mkNWC28 (suppliedMethods : Option (List String)) (d : ConnDescriptor) :
    Except String NWC28State :=
  match parseConnectionString d with
  | .error e => .error e
  | .ok p =>
    .ok ⟨false, suppliedMethods.getD defaultMethods, p.relayUrl, p.secret, p.pubkey⟩

/-- A descriptor with relay and secret present but an empty pathname, so
the pubkey is missing. -/
def missingPubkeyDescriptor : ConnDescriptor :=
  ⟨"nostr+walletconnect:", "",
   [("relay", "wss://relay.example.com"), ("secret", "deadbeef")]⟩

/-! ## Helper lemmas -/

lemma lookup_map_const_none {α : Type} (v : α) (r : String) (l : List String)
    (h : r ∉ l) : (l.map (fun x => (x, v))).lookup r = none := by
  induction l with
  | nil => rfl
  | cons a as ih =>
    simp only [List.mem_cons, not_or] at h
    have hba : (r == a) = false := by
      simp [h.1]
    simp [List.lookup, hba, ih h.2]

lemma mapSet_map_const {α : Type} (v : α) (r : String) (l : List String)
    (h : r ∉ l) :
    mapSet (l.map (fun x => (x, v))) r v = (l ++ [r]).map (fun x => (x, v)) := by
  unfold mapSet
  have hany : (l.map (fun x => (x, v))).any (fun p => p.1 = r) = false := by
    simp only [List.any_eq_false]
    intro p hp
    simp only [List.mem_map] at hp
    obtain ⟨x, hx, rfl⟩ := hp
    simp only [decide_eq_false_iff_not]
    intro hxr
    exact h (of_decide_eq_true hxr ▸ hx)
  simp [hany]

lemma getPool_fresh_step (cfg : ConnectionPoolConfig) (done : List String)
    (r : String) (hr : 1 ≤ cfg.maxRetries) (hmem : r ∉ done)
    (hlt : done.length < cfg.maxConnections) :
    getPool cfg true (freshState done) r = (.ok (), freshState (done ++ [r])) := by
  simp only [getPool, connectToRelay, freshState]
  rw [if_neg hmem, if_neg (not_le.mpr hlt)]
  rw [lookup_map_const_none (0 : Nat) r done hmem]
  simp only [Option.getD_none, if_true]
  rw [if_neg (by omega : ¬ (0 : Nat) ≥ cfg.maxRetries)]
  rw [mapSet_map_const true r done hmem, mapSet_map_const (0 : Nat) r done hmem]

lemma acquireAll_fresh (cfg : ConnectionPoolConfig) (hr : 1 ≤ cfg.maxRetries) :
    ∀ (es done : List String), (done ++ es).Nodup →
      done.length + es.length ≤ cfg.maxConnections →
      acquireAll cfg (freshState done) es =
        (es.map (fun _ => Except.ok ()), freshState (done ++ es))
  | [], done, _, _ => by simp [acquireAll]
  | r :: rs, done, hnd, hlen => by
    have hnd' := hnd
    rw [List.nodup_append] at hnd'
    have hmem : r ∉ done := fun hc => hnd'.2.2 hc (List.mem_cons_self r rs)
    have hlt : done.length < cfg.maxConnections := by
      simp only [List.length_cons] at hlen
      omega
    have hstep := getPool_fresh_step cfg done r hr hmem hlt
    have hnd2 : ((done ++ [r]) ++ rs).Nodup := by
      simpa [List.append_assoc] using hnd
    have hlen2 : (done ++ [r]).length + rs.length ≤ cfg.maxConnections := by
      simp only [List.length_append, List.length_cons, List.length_nil,
        List.length_cons] at hlen ⊢
      omega
    have ih := acquireAll_fresh cfg hr rs (done ++ [r]) hnd2 hlen2
    simp only [acquireAll, hstep, ih, List.map_cons, List.append_assoc,
      List.singleton_append]

lemma filter_not_mem_map {α : Type} (v : α) (l : List String) :
    (l.map (fun r => (r, v))).filter (fun p => ¬ p.1 ∈ l) = [] := by
  rw [List.filter_eq_nil_iff]
  intro a ha
  simp only [List.mem_map] at ha
  obtain ⟨x, hx, rfl⟩ := ha
  simp [hx]

lemma closePool_fresh (l : List String) :
    closePool (freshState l) = PoolState.init := by
  simp [closePool, freshState, PoolState.init, filter_not_mem_map]

lemma getPool_at_ceiling (cfg : ConnectionPoolConfig) (netOk : Bool)
    (st : PoolState) (relay : String) (h1 : relay ∉ st.pools)
    (h2 : st.pools.length ≥ cfg.maxConnections) :
    getPool cfg netOk st relay = (.error .CONNECTION_LIMIT_EXCEEDED, st) := by
  simp only [getPool]
  rw [if_neg h1, if_pos h2]

lemma connectToRelay_pools (cfg : ConnectionPoolConfig) (netOk : Bool)
    (st : PoolState) (relay : String) (res : Except ErrorCode Unit)
    (st2 : PoolState) (h : connectToRelay cfg netOk st relay = (res, st2)) :
    st2.pools = st.pools := by
  simp only [connectToRelay] at h
  split at h
  · cases h; rfl
  · split at h
    · cases h; rfl
    · cases h; rfl

lemma getPool_ok_of (cfg : ConnectionPoolConfig) (st : PoolState)
    (relay : String) (h1 : relay ∉ st.pools)
    (h2 : st.pools.length < cfg.maxConnections)
    (h3 : (st.retryAttempts.lookup relay).getD 0 < cfg.maxRetries) :
    getPool cfg true st relay =
      (.ok (), { pools := st.pools ++ [relay],
                 connectionStatus := mapSet st.connectionStatus relay true,
                 retryAttempts := mapSet st.retryAttempts relay 0 }) := by
  simp only [getPool, connectToRelay]
  rw [if_neg h1, if_neg (not_le.mpr h2), if_neg (not_le.mpr h3)]
  simp

lemma getPool_error_pools (cfg : ConnectionPoolConfig) (netOk : Bool)
    (st : PoolState) (relay : String) (err : ErrorCode) (st' : PoolState)
    (h : getPool cfg netOk st relay = (.error err, st')) :
    st'.pools = st.pools ∧ relay ∉ st.pools := by
  by_cases hmem : relay ∈ st.pools
  · simp [getPool, hmem] at h
  · refine ⟨?_, hmem⟩
    by_cases hlim : st.pools.length ≥ cfg.maxConnections
    · simp only [getPool, if_neg hmem, if_pos hlim] at h
      have := congrArg Prod.snd h
      simp only at this
      rw [← this]
    · simp only [getPool, if_neg hmem, if_neg hlim] at h
      rcases hc : connectToRelay cfg netOk
          { st with pools := st.pools ++ [relay] } relay with ⟨res, st2⟩
      rw [hc] at h
      have hp2 : st2.pools = st.pools ++ [relay] :=
        connectToRelay_pools cfg netOk _ relay res st2 hc
      cases res with
      | ok u => simp at h
      | error e =>
        simp only at h
        have hsnd := congrArg Prod.snd h
        simp only at hsnd
        rw [← hsnd]
        simp only [hp2]
        rw [List.erase_append_right _ hmem]
        simp

/-! ## Claim C1 and C10: connection pool -/

/-- Claim C1: with maxConnections = N, after N distinct endpoints have
been acquired through getPool and their entries are in the pool, an
acquire of a further distinct endpoint fails with
CONNECTION_LIMIT_EXCEEDED and leaves the whole pool state unchanged;
after close, the pool holds no connections and acquiring the N distinct
endpoints succeeds again. -/
theorem pool_ceiling_enforced (cfg : ConnectionPoolConfig) (es : List String)
    (e : String) (hlen : es.length = cfg.maxConnections) (hnd : es.Nodup)
    (he : e ∉ es) (hr : 1 ≤ cfg.maxRetries) :
    acquireAll cfg PoolState.init es =
      (es.map (fun _ => Except.ok ()), freshState es) ∧
    getPool cfg true (freshState es) e =
      (.error .CONNECTION_LIMIT_EXCEEDED, freshState es) ∧
    closePool (freshState es) = PoolState.init ∧
    acquireAll cfg (closePool (freshState es)) es =
      (es.map (fun _ => Except.ok ()), freshState es) := by
  have hmain := acquireAll_fresh cfg hr es [] (by simpa using hnd)
    (by simpa using hlen.le)
  have hclose := closePool_fresh es
  refine ⟨by simpa using hmain, ?_, hclose, by rw [hclose]; simpa using hmain⟩
  exact getPool_at_ceiling cfg true (freshState es) e he (by exact hlen.ge)

/-- Witness for pool_ceiling_enforced at maxConnections = 2 with
endpoints a, b and the additional endpoint c. -/
theorem pool_ceiling_enforced_witness :
    acquireAll ⟨2, 3⟩ PoolState.init ["a", "b"] =
      (["a", "b"].map (fun _ => Except.ok ()), freshState ["a", "b"]) ∧
    getPool ⟨2, 3⟩ true (freshState ["a", "b"]) "c" =
      (.error .CONNECTION_LIMIT_EXCEEDED, freshState ["a", "b"]) ∧
    closePool (freshState ["a", "b"]) = PoolState.init ∧
    acquireAll ⟨2, 3⟩ (closePool (freshState ["a", "b"])) ["a", "b"] =
      (["a", "b"].map (fun _ => Except.ok ()), freshState ["a", "b"]) :=
  pool_ceiling_enforced ⟨2, 3⟩ ["a", "b"] "c" (by decide) (by decide)
    (by decide) (by decide)

/-- Claim C10: when getPool fails (limit, timeout, relay failure, or
exhausted retry budget), the failed endpoint holds no pool entry - the
pools map equals its value before the call - so it occupies no slot
toward maxConnections, and a later getPool for the same endpoint goes
down the establishment path again (here: it succeeds by creating a fresh
entry whenever capacity and retry budget allow and the network
cooperates) instead of returning a dead cached entry. -/
theorem failed_acquire_frees_slot (cfg : ConnectionPoolConfig) (netOk : Bool)
    (st : PoolState) (relay : String) (err : ErrorCode) (st' : PoolState)
    (h : getPool cfg netOk st relay = (.error err, st')) :
    st'.pools = st.pools ∧ relay ∉ st'.pools ∧
    (st'.pools.length < cfg.maxConnections →
     (st'.retryAttempts.lookup relay).getD 0 < cfg.maxRetries →
     ∃ st2, getPool cfg true st' relay = (.ok (), st2) ∧ relay ∈ st2.pools) := by
  obtain ⟨hpools, hmem⟩ := getPool_error_pools cfg netOk st relay err st' h
  have hmem' : relay ∉ st'.pools := by rw [hpools]; exact hmem
  refine ⟨hpools, hmem', fun h2 h3 => ?_⟩
  exact ⟨_, getPool_ok_of cfg st' relay hmem' h2 h3, by simp⟩

/-- Witness for failed_acquire_frees_slot: a lost establishment race for
endpoint a on an empty one-slot pool. -/
theorem failed_acquire_frees_slot_witness :
    (⟨[], [("a", false)], [("a", 1)]⟩ : PoolState).pools = PoolState.init.pools ∧
    "a" ∉ (⟨[], [("a", false)], [("a", 1)]⟩ : PoolState).pools ∧
    ((⟨[], [("a", false)], [("a", 1)]⟩ : PoolState).pools.length < 1 →
     ((⟨[], [("a", false)], [("a", 1)]⟩ : PoolState).retryAttempts.lookup "a").getD 0 < 2 →
     ∃ st2, getPool ⟨1, 2⟩ true ⟨[], [("a", false)], [("a", 1)]⟩ "a" =
        (.ok (), st2) ∧ "a" ∈ st2.pools) :=
  failed_acquire_frees_slot ⟨1, 2⟩ false PoolState.init "a" .RELAY_TIMEOUT
    ⟨[], [("a", false)], [("a", 1)]⟩ rfl

/-! ## Claims C2, C8, C9, C3: message queue -/

/-- Claim C2: the repository test (tests/core/queue.test.ts, test name
should process messages in priority order) enqueues priorities 2, 1, 3
in that order under one registered type with a recording handler that
always succeeds and expects the recorded order to be 3, 2, 1.  The code
cannot produce that order: the drain loop starts during the first
enqueue and invokes the handler on the only buffered item, the priority-2
one, before the others are enqueued; and after each await the loop
shifts the current front of the re-sorted array rather than the message
it processed.  Running the embedded event-loop semantics on this
scenario records 2, 2, 1 - the priority-2 handler runs twice, the
priority-3 item is dropped without its handler ever running, and
messageProcessed fires twice for the priority-2 id (0) and once for the
priority-1 id (1), never for the priority-3 id (2). -/
theorem queue_priority_order_bug :
    (runPriorityScenario ⟨100, 1000, 3, 100⟩ (initQueue ["test"])
      [.enq 2 0, .enq 1 1, .enq 3 2, .complete, .complete, .complete]).record
      = [2, 2, 1] ∧
    (runPriorityScenario ⟨100, 1000, 3, 100⟩ (initQueue ["test"])
      [.enq 2 0, .enq 1 1, .enq 3 2, .complete, .complete, .complete]).record
      ≠ [3, 2, 1] ∧
    (runPriorityScenario ⟨100, 1000, 3, 100⟩ (initQueue ["test"])
      [.enq 2 0, .enq 1 1, .enq 3 2, .complete, .complete, .complete]).processedLog
      = [0, 0, 1] := by decide

lemma insertDesc_perm (m : QueuedMessage) (l : List QueuedMessage) :
    (insertDesc m l).Perm (m :: l) := by
  induction l with
  | nil => rfl
  | cons y ys ih =>
    simp only [insertDesc]
    split
    · exact (ih.cons y).trans (List.Perm.swap m y ys)
    · rfl

lemma sortDesc_perm (l : List QueuedMessage) : (sortDesc l).Perm l := by
  induction l with
  | nil => rfl
  | cons x xs ih => exact (insertDesc_perm x (sortDesc xs)).trans (ih.cons x)

lemma enqueue_ok_parts (cfg : QueueConfig) (st : QueueState) (type : String)
    (payload priority : Int) (now : Nat) (h1 : type ∈ st.handlers)
    (h2 : st.queue.length < cfg.maxSize) :
    (enqueue cfg st type payload priority now).1 = .ok st.nextId ∧
    (enqueue cfg st type payload priority now).2.queue =
      sortDesc (st.queue ++ [⟨st.nextId, type, payload, priority, now, 0⟩]) := by
  simp only [enqueue]
  rw [if_neg (by simpa using h1), if_neg (not_le.mpr h2)]
  split
  · exact ⟨rfl, rfl⟩
  · split
    · exact ⟨rfl, rfl⟩
    · exact ⟨rfl, rfl⟩

/-- Claim C8: enqueue of an unregistered type rejects synchronously with
INVALID_MESSAGE_TYPE leaving the queue unchanged; enqueue onto a buffer
already holding maxSize items rejects synchronously with QUEUE_FULL
leaving the queue unchanged; otherwise enqueue returns the fresh id of
the new item immediately (processing happens through later events, never
awaited by the enqueuer) and the new queue holds exactly the old items
plus the new one. -/
theorem enqueue_checks (cfg : QueueConfig) (st : QueueState) (type : String)
    (payload priority : Int) (now : Nat) :
    (type ∉ st.handlers →
      enqueue cfg st type payload priority now = (.error .INVALID_MESSAGE_TYPE, st)) ∧
    (type ∈ st.handlers → st.queue.length ≥ cfg.maxSize →
      enqueue cfg st type payload priority now = (.error .QUEUE_FULL, st)) ∧
    (type ∈ st.handlers → st.queue.length < cfg.maxSize →
      (enqueue cfg st type payload priority now).1 = .ok st.nextId ∧
      ((enqueue cfg st type payload priority now).2.queue).Perm
        (st.queue ++ [⟨st.nextId, type, payload, priority, now, 0⟩])) := by
  refine ⟨fun h1 => ?_, fun h1 h2 => ?_, fun h1 h2 => ?_⟩
  · simp only [enqueue]
    rw [if_pos h1]
  · simp only [enqueue]
    rw [if_neg (by simpa using h1), if_pos h2]
  · obtain ⟨ha, hb⟩ := enqueue_ok_parts cfg st type payload priority now h1 h2
    refine ⟨ha, ?_⟩
    rw [hb]
    exact sortDesc_perm _

/-- Witness for enqueue_checks: an unregistered type is rejected, a full
one-slot queue rejects the second enqueue, and an accepted enqueue
returns the fresh id 0. -/
theorem enqueue_checks_witness :
    enqueue ⟨1, 1000, 3, 100⟩ (initQueue ["test"]) "bogus" 0 0 0 =
      (.error .INVALID_MESSAGE_TYPE, initQueue ["test"]) ∧
    (enqueue ⟨1, 1000, 3, 100⟩
        ((enqueue ⟨1, 1000, 3, 100⟩ (initQueue ["test"]) "test" 0 0 0).2)
        "test" 1 1 1).1.isOk = false ∧
    (enqueue ⟨1, 1000, 3, 100⟩ (initQueue ["test"]) "test" 0 0 0).1 = .ok 0 :=
  ⟨(enqueue_checks ⟨1, 1000, 3, 100⟩ (initQueue ["test"]) "bogus" 0 0 0).1
      (by decide),
   by
    rw [(enqueue_checks ⟨1, 1000, 3, 100⟩ _ "test" 1 1 1).2.1 (by decide)
      (by decide)]
    rfl,
   ((enqueue_checks ⟨1, 1000, 3, 100⟩ (initQueue ["test"]) "test" 0 0 0).2.2
      (by decide) (by decide)).1⟩

/-- Counterexample for claim C9: in the state reached by enqueuing a
priority-0 item at time 5 and then a priority-5 item at time 9, the
higher-priority later item sits at the front, so getStatus reports
timestamp 9 while the minimum enqueue timestamp over the buffered items
is 5. -/
theorem getStatus_head_not_oldest :
    (getStatus statusCounterexampleState).oldestMessage = some 9 ∧
    statusCounterexampleState.queue.map (fun m => m.timestamp) = [9, 5] ∧
    (getStatus statusCounterexampleState).oldestMessage ≠ some 5 := by decide

/-- Claim C9 as amended: getStatus reports the current number of
buffered items, the processing flag, and the enqueue timestamp of the
FRONT (highest-priority) buffered item, none when the queue is empty;
that timestamp is the minimum over all buffered items exactly when the
timestamps are nondecreasing along the queue (for instance when all
priorities are equal, since the sort is stable), not in general. -/
theorem getStatus_reports (st : QueueState) :
    (getStatus st).size = st.queue.length ∧
    (getStatus st).processing = st.processing ∧
    (st.queue = [] → (getStatus st).oldestMessage = none) ∧
    (List.Chain' (fun a b => a.timestamp ≤ b.timestamp) st.queue →
      ∀ m ∈ st.queue, ∃ t, (getStatus st).oldestMessage = some t ∧
        t ≤ m.timestamp) := by
  refine ⟨rfl, rfl, fun h => by simp [getStatus, h], fun hc m hm => ?_⟩
  cases hq : st.queue with
  | nil => simp [hq] at hm
  | cons h t =>
    refine ⟨h.timestamp, by simp [getStatus, hq], ?_⟩
    rw [hq] at hc hm
    have hp := (@List.chain'_iff_pairwise QueuedMessage
      (fun a b => a.timestamp ≤ b.timestamp)
      ⟨fun a b c hab hbc => le_trans hab hbc⟩ (h :: t)).mp hc
    rcases List.mem_cons.mp hm with rfl | hmt
    · exact le_refl _
    · exact (List.pairwise_cons.mp hp).1 m hmt

/-- Witness for getStatus_reports on the two-equal-priority state: the
reported timestamp bounds the timestamp of the later item. -/
theorem getStatus_reports_witness :
    ∃ t, (getStatus statusWitnessState).oldestMessage = some t ∧ t ≤ 9 :=
  (getStatus_reports statusWitnessState).2.2.2
    (by
      have hq : statusWitnessState.queue =
          [⟨0, "test", 0, 0, 5, 0⟩, ⟨1, "test", 0, 0, 9, 0⟩] := by decide
      rw [hq]
      simp)
    ⟨1, "test", 0, 0, 9, 0⟩ (by decide)

lemma drainAlwaysFailing_aux : ∀ (k retry : Nat) (m : QueuedMessage),
    retry - m.attempts = k + 1 →
    drainAlwaysFailing retry m = ⟨k + 1, [m.id], 0⟩
  | 0, retry, m, hk => by
    rw [drainAlwaysFailing]
    rw [dif_pos (by omega)]
  | k + 1, retry, m, hk => by
    rw [drainAlwaysFailing]
    rw [dif_neg (by omega : ¬ m.attempts + 1 ≥ retry)]
    have ih := drainAlwaysFailing_aux k retry
      { m with attempts := m.attempts + 1 } (by simp; omega)
    simp only [ih]

/-- Claim C3 as amended: provided retryAttempts is at least 1, an item
whose handler fails on every attempt has its handler invoked exactly
retryAttempts times, after which the item is removed, one messageFailed
event is emitted carrying its id (and the final error), the queue size
returns to 0, and the drain loop returns normally so nothing is thrown
back to the enqueuer. -/
theorem retry_then_drop (retry : Nat) (m : QueuedMessage) (hr : 1 ≤ retry)
    (h0 : m.attempts = 0) :
    drainAlwaysFailing retry m =
      { invocations := retry, failedLog := [m.id], finalQueueLength := 0 } := by
  have hk : retry - m.attempts = (retry - 1) + 1 := by omega
  have := drainAlwaysFailing_aux (retry - 1) retry m hk
  rw [this]
  congr 1
  omega

/-- Witness for retry_then_drop at retryAttempts = 3. -/
theorem retry_then_drop_witness :
    drainAlwaysFailing 3 ⟨7, "test", 0, 0, 0, 0⟩ =
      { invocations := 3, failedLog := [7], finalQueueLength := 0 } :=
  retry_then_drop 3 ⟨7, "test", 0, 0, 0, 0⟩ (by decide) rfl

/-- Counterexample for claim C3 as stated: with retryAttempts = 0 the
always-failing handler is still invoked once (the attempt happens before
the budget check), not zero times. -/
theorem retry_zero_budget :
    drainAlwaysFailing 0 ⟨7, "test", 0, 0, 0, 0⟩ =
      { invocations := 1, failedLog := [7], finalQueueLength := 0 } ∧
    (1 : Nat) ≠ 0 := by
  refine ⟨?_, by decide⟩
  rw [drainAlwaysFailing]
  rw [dif_pos (by omega)]

/-! ## Claims C4, C6, C5, C7: wallet-connect clients -/

/-- Claim C4 as amended: for an outstanding pending payment, delivering
a SUCCESS response correlated to it resolves the caller exactly once and
removes the entry, and delivering the same response again finds no
pending entry, changes no state, and returns normally.  (A
failure-status response neither resolves nor removes the entry, which is
why the amendment restricts the claim to success responses.) -/
theorem payment_response_idempotent (st : NWC27State)
    (ev : PaymentResponseEvent) (pid : String)
    (hid : ev.paymentIdTag = some pid) (hs : ev.status = "success")
    (hp : pid ∈ st.pendingPayments) (hnd : st.pendingPayments.Nodup) :
    (handlePaymentResponse27 st ev).resolvedLog = st.resolvedLog ++ [pid] ∧
    pid ∉ (handlePaymentResponse27 st ev).pendingPayments ∧
    handlePaymentResponse27 (handlePaymentResponse27 st ev) ev =
      handlePaymentResponse27 st ev := by
  have h1 : handlePaymentResponse27 st ev =
      { st with
          resolvedLog := st.resolvedLog ++ [pid],
          pendingPayments := st.pendingPayments.erase pid } := by
    simp only [handlePaymentResponse27, hid, hs]
    rw [if_pos hp]
    simp
  have hout : pid ∉ st.pendingPayments.erase pid := fun hmem =>
    ((hnd.mem_erase_iff).mp hmem).1 rfl
  refine ⟨by rw [h1], by rw [h1]; exact hout, ?_⟩
  rw [h1]
  simp only [handlePaymentResponse27, hid]
  rw [if_neg hout]

/-- Witness for payment_response_idempotent: one pending payment p, one
duplicated success response. -/
theorem payment_response_idempotent_witness :
    (handlePaymentResponse27 ⟨true, none, [], ["p"], [], [], [], []⟩
        ⟨some "p", "success"⟩).resolvedLog = [] ++ ["p"] ∧
    "p" ∉ (handlePaymentResponse27 ⟨true, none, [], ["p"], [], [], [], []⟩
        ⟨some "p", "success"⟩).pendingPayments ∧
    handlePaymentResponse27
        (handlePaymentResponse27 ⟨true, none, [], ["p"], [], [], [], []⟩
          ⟨some "p", "success"⟩) ⟨some "p", "success"⟩ =
      handlePaymentResponse27 ⟨true, none, [], ["p"], [], [], [], []⟩
        ⟨some "p", "success"⟩ :=
  payment_response_idempotent ⟨true, none, [], ["p"], [], [], [], []⟩
    ⟨some "p", "success"⟩ "p" rfl rfl (by decide) (by decide)

/-- Counterexample for claim C4 as stated: a failure-status response
correlated to the outstanding call resolves nothing and leaves the
pending entry in place, so the second delivery still finds a pending
entry and changes state (it appends another error event). -/
theorem duplicate_failure_response_counterexample :
    "p" ∈ (handlePaymentResponse27 failureResponseState
        failureResponseEvent).pendingPayments ∧
    (handlePaymentResponse27 failureResponseState
        failureResponseEvent).resolvedLog = [] ∧
    handlePaymentResponse27
        (handlePaymentResponse27 failureResponseState failureResponseEvent)
        failureResponseEvent ≠
      handlePaymentResponse27 failureResponseState failureResponseEvent := by
  decide

/-- Claim C6 as amended: disconnect clears the connected flag,
capabilities, subscriptions, and the whole pendingPayments map, but the
discarded pending calls are NOT rejected: neither the rejection log nor
the resolution log changes, so callers see no ConnectionLost error (they
are left to their individual payment timeouts). -/
theorem disconnect_discards_without_rejecting (st : NWC27State) :
    (disconnect27 st).connected = false ∧
    (disconnect27 st).capabilities = none ∧
    (disconnect27 st).subscriptions = [] ∧
    (disconnect27 st).pendingPayments = [] ∧
    (disconnect27 st).rejectedLog = st.rejectedLog ∧
    (disconnect27 st).resolvedLog = st.resolvedLog :=
  ⟨rfl, rfl, rfl, rfl, rfl, rfl⟩

/-- Counterexample for claim C6 as stated: a client with the outstanding
pending payment p is disconnected; the pending entry disappears but no
rejection (ConnectionLost or otherwise) and no resolution is ever
delivered for it. -/
theorem disconnect_no_connection_lost_counterexample :
    disconnectState.pendingPayments = ["p"] ∧
    (disconnect27 disconnectState).pendingPayments = [] ∧
    (disconnect27 disconnectState).rejectedLog = [] ∧
    (disconnect27 disconnectState).resolvedLog = [] := by decide

/-- Counterexample for claim C5 as stated: in the part_028 client,
get_balance is absent from the supported-methods set of the connected
client, yet getBalance does not reject with an UnsupportedMethod error -
it proceeds to build the request event and hand it to sendEvent. -/
theorem capability_check_missing_counterexample :
    "get_balance" ∉ connectedNoBalanceCap.supportedMethods ∧
    getBalance28 connectedNoBalanceCap = .ok ["get_balance"] :=
  ⟨by decide, rfl⟩

/-- Claim C5 as amended: calls made while connected is false reject
immediately, before any event is built or sent, in both clients
(part_027 payInvoice with its NotConnected error, part_028 payInvoice
and getBalance with theirs); the UnsupportedMethod-style capability
check exists only in part_027 (shown for payInvoice: a connected client
whose negotiated capability set lacks payInvoice rejects before
publishing), not in part_028. -/
theorem rpc_guard_checks (st27 : NWC27State) (st28 : NWC28State)
    (pid : String) :
    (st27.connected = false →
      payInvoice27 st27 pid = .error "Not connected to wallet") ∧
    (st27.connected = true →
      (st27.capabilities.map (fun c => c.payInvoice)).getD false = false →
      payInvoice27 st27 pid = .error "Wallet does not support paying invoices") ∧
    (st28.connected = false →
      payInvoice28 st28 = .error "Not connected" ∧
      getBalance28 st28 = .error "Not connected") := by
  refine ⟨fun h1 => ?_, fun h1 h2 => ?_, fun h1 => ⟨?_, ?_⟩⟩
  · simp only [payInvoice27]
    rw [if_pos (by simp [h1])]
  · simp only [payInvoice27]
    rw [if_neg (by simp [h1]), if_pos (by simp [h2])]
  · simp only [payInvoice28]
    rw [if_pos (by simp [h1])]
  · simp only [getBalance28]
    rw [if_pos (by simp [h1])]

/-- Witness for rpc_guard_checks at concrete disconnected and
capability-less states. -/
theorem rpc_guard_checks_witness :
    payInvoice27 ⟨false, none, [], [], [], [], [], []⟩ "p" =
      .error "Not connected to wallet" ∧
    payInvoice27 ⟨true, none, [], [], [], [], [], []⟩ "p" =
      .error "Wallet does not support paying invoices" ∧
    getBalance28 ⟨false, ["get_balance"], "r", "s", "pk"⟩ =
      .error "Not connected" :=
  ⟨(rpc_guard_checks ⟨false, none, [], [], [], [], [], []⟩
      ⟨false, [], "r", "s", "pk"⟩ "p").1 rfl,
   (rpc_guard_checks ⟨true, none, [], [], [], [], [], []⟩
      ⟨false, [], "r", "s", "pk"⟩ "p").2.1 rfl rfl,
   ((rpc_guard_checks ⟨false, none, [], [], [], [], [], []⟩
      ⟨false, ["get_balance"], "r", "s", "pk"⟩ "p").2.2 rfl).2⟩

/-- Claim C7 as amended: a connection descriptor whose relay parameter
or secret parameter is missing (or empty) makes construction of the
part_028 client fail immediately with the malformed-descriptor error, so
no client value exists.  (A missing pubkey is NOT rejected - see the
counterexample.) -/
theorem missing_relay_or_secret_rejected (suppliedMethods : Option (List String))
    (d : ConnDescriptor)
    (h : (d.params.lookup "relay").getD "" = "" ∨
         (d.params.lookup "secret").getD "" = "") :
    mkNWC28 suppliedMethods d = .error "Invalid connection string format" := by
  simp only [mkNWC28, parseConnectionString]
  cases hp : strStartsWith d.protocol "nostr+walletconnect" with
  | false => rw [if_pos (by simp [hp])]
  | true => rw [if_neg (by simp [hp]), if_pos h]

/-- Witness for missing_relay_or_secret_rejected: a descriptor carrying
a pubkey and a secret but no relay parameter. -/
theorem missing_relay_or_secret_rejected_witness :
    mkNWC28 none ⟨"nostr+walletconnect:", "//pk", [("secret", "s")]⟩ =
      .error "Invalid connection string format" :=
  missing_relay_or_secret_rejected none
    ⟨"nostr+walletconnect:", "//pk", [("secret", "s")]⟩ (Or.inl (by decide))

/-- Counterexample for claim C7 as stated: a descriptor with relay and
secret present but no pubkey (empty pathname) is accepted - construction
succeeds and yields a client whose remote pubkey is the empty string,
instead of failing with an InvalidConnectionDescriptor error. -/
theorem missing_pubkey_not_rejected_counterexample :
    parseConnectionString missingPubkeyDescriptor =
      .ok ⟨"", "wss://relay.example.com", "deadbeef"⟩ ∧
    mkNWC28 none missingPubkeyDescriptor =
      .ok ⟨false, defaultMethods, "wss://relay.example.com", "deadbeef", ""⟩ :=
  ⟨rfl, rfl⟩
